import Mathlib

/-!
Verification of the SQLite wrapper layer (`src/utils/sqlite-wrapper.ts`).

The TypeScript source is shallowly embedded: pure string-building code
becomes Lean functions on `String`/`List Char`; the promise executors
(`new Promise((resolve, reject) => ...)`) are modelled by explicit
"first settlement wins" state threading, since in JavaScript calling
`reject` inside an executor settles the promise but does NOT stop
execution of the remaining executor body; JavaScript values that may be
a string, number, boolean or null become the inductive `JsValue`.
-/

/-- Scalar values accepted by the wrapper
(`AvailableDataTypeType = string | number | boolean | null`). -/
inductive JsValue where
  | str (s : String)
  | num (n : Int)
  | boolVal (b : Bool)
  | null
deriving DecidableEq, Repr

/-- Comparison operators of `WhereConditionItemType.operator`. -/
inductive CompareOp where
  | eq | gt | lt | ge | le | ne | like
deriving DecidableEq, Repr

/-- The literal SQL text of a comparison operator. -/
def compareOpStr : CompareOp → String
  | .eq => "=" | .gt => ">" | .lt => "<" | .ge => ">=" | .le => "<=" | .ne => "!=" | .like => "LIKE"

/-- Logical connectives of `WhereConditionItemType.logicalOperator`. -/
inductive LogicalOp where
  | andOp | orOp
deriving DecidableEq, Repr

/-- The literal SQL text of a logical connective. -/
def logicalOpStr : LogicalOp → String
  | .andOp => "AND" | .orOp => "OR"

/-- One WHERE condition (`WhereConditionItemType`). -/
structure WhereConditionItem where
  key : String
  operator : CompareOp
  compared : JsValue
  logicalOperator : LogicalOp
deriving DecidableEq, Repr

/-- ASCII letter or digit or underscore, the non-whitespace part of the
character class `[a-zA-Z0-9_]` used by the validator regexes. -/
def isWordChar (c : Char) : Bool :=
  (('a' ≤ c && c ≤ 'z') || ('A' ≤ c && c ≤ 'Z') || ('0' ≤ c && c ≤ '9') || c = '_')

/-- JavaScript regex `\s`: the WhiteSpace and LineTerminator productions
(space, tab, LF, VT, FF, CR, NBSP, line/paragraph separators, BOM and the
Unicode space separators). -/
def isJsSpace (c : Char) : Bool :=
  c = ' ' || c = '\t' || c = '\n' || c = '\x0b' || c = '\x0c' || c = '\r' ||
  c = '\u00A0' || c = '\u1680' ||
  ('\u2000' ≤ c && c ≤ '\u200A') ||
  c = '\u2028' || c = '\u2029' || c = '\u202F' || c = '\u205F' || c = '\u3000' ||
  c = '\uFEFF'

/-- Test of the regex `^[a-zA-Z0-9_\s]+$` (`allowedChars` in the source):
a non-empty string all of whose characters are word characters or whitespace. -/
def allowedCharsTest (s : String) : Bool :=
  s.data ≠ [] && s.data.all (fun c => isWordChar c || isJsSpace c)

/-- Test of the regex `/\*$/` (`singleStar` in the source).  The pattern is
unanchored at the start, so it matches exactly when the last character of
the string is a star. -/
def singleStarTest (s : String) : Bool :=
  s.data.getLast? = some '*'

/-- Characters allowed inside the parenthesized tuple form:
the class `[a-zA-Z0-9_,\s]`. -/
def isTupleChar (c : Char) : Bool :=
  isWordChar c || isJsSpace c || c = ','

/-- The closing part of the tuple regex: the reversed remainder after the
opening parenthesis must be `)` followed by a non-empty reversed body of
tuple characters. -/
def tupleTailTest : List Char → Bool
  | [] => false
  | b :: bodyRev => b = ')' && bodyRev ≠ [] && bodyRev.all isTupleChar

/-- Test of the regex `^\([a-zA-Z0-9_,\s]+\)$` (`allowTuple` in the
source) on a character list: an opening parenthesis, a non-empty run of
tuple characters, a closing parenthesis. -/
def allowTupleAux : List Char → Bool
  | [] => false
  | a :: rest => a = '(' && tupleTailTest rest.reverse

def allowTupleTest (s : String) : Bool :=
  allowTupleAux s.data

/-- Function `checkSqlQueryIdentifierName` from the source: the disjunction of the
three regex tests. -/
def checkSqlQueryIdentifierName (characters : String) : Bool :=
  allowedCharsTest characters || singleStarTest characters || allowTupleTest characters

/-- One fragment of the WHERE clause built by `getConditionStr`:
`` ` ${index >= 1 ? condition.logicalOperator : ""} (${key} ${operator} ?)` ``,
after the throw on an invalid column name. -/
def conditionFragment (index : Nat) (c : WhereConditionItem) : Except String String :=
  if checkSqlQueryIdentifierName c.key then
    .ok (" " ++ (if index ≥ 1 then logicalOpStr c.logicalOperator else "") ++
      " (" ++ c.key ++ " " ++ compareOpStr c.operator ++ " ?)")
  else
    .error ("Invalid characters in column name: " ++ c.key)

/-- The `conditions.map((condition, index) => ...)` loop of
`getConditionStr`; a throw at any element aborts the whole construction. -/
def mapFragments : Nat → List WhereConditionItem → Except String (List String)
  | _, [] => .ok []
  | i, c :: cs => do
      let f ← conditionFragment i c
      let rest ← mapFragments (i + 1) cs
      .ok (f :: rest)

/-- Method `DatabaseWrapper.getConditionStr`: empty string for the empty list,
otherwise `` ` WHERE ${...join("")}` ``; throws (here: `.error`) when a
condition's column name fails the identifier check. -/
def getConditionStr (conditions : List WhereConditionItem) : Except String String :=
  if conditions.length = 0 then .ok ""
  else do
    let frags ← mapFragments 0 conditions
    .ok (" WHERE " ++ String.join frags)

/-- The query-string and parameter-list construction of
`DatabaseWrapper.select` (the body after the awaited existence check and
the reject-on-invalid-identifier calls, which do not stop execution):
`` `SELECT ${columns.join(",")} FROM ${tableName}` `` plus the WHERE,
LIMIT and OFFSET parts.  `limit` and `offset` are appended only when
strictly positive, in that case as a `?` placeholder with the value
pushed onto the parameter list; `getConditionStr` may throw. -/
def selectQueryBuild (tableName : String) (columns : List String)
    (conditions : List WhereConditionItem) (limit offset : Int) :
    Except String (String × List JsValue) := do
  let queryStr := "SELECT " ++ String.intercalate "," columns ++ " FROM " ++ tableName
  let param := conditions.map (fun c => c.compared)
  let queryStr ←
    if conditions.length > 0 then do
      let cond ← getConditionStr conditions
      pure (queryStr ++ cond)
    else pure queryStr
  let (queryStr, param) :=
    if limit > 0 then (queryStr ++ " LIMIT ?", param ++ [JsValue.num limit])
    else (queryStr, param)
  let (queryStr, param) :=
    if offset > 0 then (queryStr ++ " OFFSET ?", param ++ [JsValue.num offset])
    else (queryStr, param)
  pure (queryStr, param)

/-- One row passed to `insert` (`TableFrameDataType`): a JavaScript object,
i.e. an ordered association list from column names to scalar values. -/
def TableFrameData := List (String × JsValue)

/-- Conflict actions of `insert`'s `options.conflict.action`. -/
inductive ConflictAction where
  | rollback | fail | nothing | update | ignore | replace
deriving DecidableEq, Repr

/-- The literal SQL text of a conflict action. -/
def conflictActionStr : ConflictAction → String
  | .rollback => "ROLLBACK" | .fail => "FAIL" | .nothing => "NOTHING"
  | .update => "UPDATE" | .ignore => "IGNORE" | .replace => "REPLACE"

/-- The `insert` method's `options.conflict` value: an action and an optional key. -/
structure ConflictOption where
  action : ConflictAction
  key : Option String
deriving DecidableEq, Repr

/-- One element of the column list of the INSERT statement.  In the source
the map callback returns `Promise.reject(...)` for an invalid column name
instead of the key; `Array.prototype.join` then stringifies that promise
object as `[object Promise]` and execution continues. -/
def insertKeyFragment (k : String) : String :=
  if checkSqlQueryIdentifierName k then k else "[object Promise]"

/-- The `` ` VALUES (${...fill("?").join(", ")})` `` fragment built for one
row of `insert`'s `dataFrame`: a VALUES keyword of its own with one `?`
per key of that row. -/
def insertValuesFragment (row : TableFrameData) : String :=
  " VALUES (" ++ String.intercalate ", " (row.map (fun _ => "?")) ++ ")"

/-- The `ON CONFLICT` suffix of `insert`. -/
def insertOptionStr (conflict : Option ConflictOption) : String :=
  match conflict with
  | none => ""
  | some c =>
    " ON CONFLICT " ++ (match c.key with | some k => "(" ++ k ++ ")" | none => "") ++
    " DO " ++ conflictActionStr c.action

/-- Outcome of a call to `DatabaseWrapper.insert`: a synchronous JavaScript
exception thrown before any SQL is built, an early `Promise.reject`, or a
statement handed to `runCommand` (and hence to the engine) with its bound
parameters. -/
inductive InsertOutcome where
  | syncThrow (msg : String)
  | rejected (msg : String)
  | command (sql : String) (params : List JsValue)
deriving DecidableEq, Repr

/-- Method `DatabaseWrapper.insert`.  The guard
`if (!this.isTableExist(tableName)) return Promise.reject(...)` never
fires because `isTableExist` returns a promise object, which is always
truthy, so its negation is constantly false.  An empty `dataFrame` makes
`Object.keys(dataFrame[0])` throw a TypeError before any statement is
built.  Otherwise the column list comes from the first row's keys and
each row contributes its own ` VALUES (...)` fragment, the fragments
joined with `", "`. -/
def insertModel (tableName : String) (dataFrame : List TableFrameData)
    (conflict : Option ConflictOption) : InsertOutcome :=
  if !checkSqlQueryIdentifierName tableName then
    .rejected ("Invalid characters in table name: " ++ tableName)
  else
    match dataFrame with
    | [] => .syncThrow "TypeError: Cannot convert undefined or null to object"
    | firstRow :: _ =>
      let queryStr := "INSERT INTO " ++ tableName ++ " (" ++
        String.intercalate ", " (firstRow.map (fun kv => insertKeyFragment kv.1)) ++ ")"
      let valuesStr := String.intercalate ", " (dataFrame.map insertValuesFragment)
      let optionStr := insertOptionStr conflict
      .command (queryStr ++ valuesStr ++ optionStr)
        ((dataFrame.map (fun row => row.map (fun kv => kv.2))).flatten)

/-- SQLite column types (`DataTypesSqlType`). -/
inductive DataTypeSql where
  | nullType | integer | real | text | boolean
deriving DecidableEq, Repr

/-- The literal SQL text of a column type. -/
def dataTypeSqlStr : DataTypeSql → String
  | .nullType => "NULL" | .integer => "INTEGER" | .real => "REAL"
  | .text => "TEXT" | .boolean => "BOOLEAN"

/-- Foreign-key actions. -/
inductive FkAction where
  | cascade | setNull | noAction | restrict
deriving DecidableEq, Repr

/-- The literal SQL text of a foreign-key action. -/
def fkActionStr : FkAction → String
  | .cascade => "CASCADE" | .setNull => "SET NULL"
  | .noAction => "NO ACTION" | .restrict => "RESTRICT"

/-- The `foreignKey` field of a column definition. -/
structure ForeignKeyDef where
  references : String
  column : String
  onDelete : Option FkAction
  onUpdate : Option FkAction
deriving DecidableEq, Repr

/-- One column definition of `TableFrameInitType`.  `defaultValue = none`
models the JavaScript `undefined` tested by `!== undefined`; a present
JavaScript `null` is `some JsValue.null`. -/
structure ColumnDef where
  type : DataTypeSql
  primaryKey : Bool := false
  notNull : Bool := false
  defaultValue : Option JsValue := none
  foreignKey : Option ForeignKeyDef := none
deriving DecidableEq, Repr

/-- A table frame (`TableFrameInitType`): a JavaScript object from column
names to column definitions, i.e. an ordered association list. -/
def TableFrameInit := List (String × ColumnDef)

/-- Lower-case hexadecimal digit, for JSON string escapes. -/
def hexDigit (n : Nat) : Char :=
  if n < 10 then Char.ofNat (48 + n) else Char.ofNat (87 + n)

/-- The `JSON.stringify` escaping of one character inside a string literal. -/
def jsonEscapeChar (c : Char) : String :=
  if c = '"' then "\\\""
  else if c = '\\' then "\\\\"
  else if c = '\x08' then "\\b"
  else if c = '\t' then "\\t"
  else if c = '\n' then "\\n"
  else if c = '\x0c' then "\\f"
  else if c = '\r' then "\\r"
  else if c.toNat < 32 then
    "\\u00" ++ String.singleton (hexDigit (c.toNat / 16)) ++ String.singleton (hexDigit (c.toNat % 16))
  else String.singleton c

/-- The `JSON.stringify` encoding of the scalar default values. -/
def jsonStringify : JsValue → String
  | .str s => "\"" ++ String.join (s.data.map jsonEscapeChar) ++ "\""
  | .num n => toString n
  | .boolVal b => if b then "true" else "false"
  | .null => "null"

/-- The 28 spaces of leading indentation on the continuation lines of the
column-definition template literal in `prepareTable`. -/
def columnIndent : String := "                            "

/-- The raw multi-line template literal built for one column of
`prepareTable` before whitespace normalization. -/
def colDefRaw (key : String) (c : ColumnDef) : String :=
  key ++ " " ++ dataTypeSqlStr c.type ++ "\n" ++ columnIndent ++
  (if c.notNull then "NOT NULL" else "") ++ "\n" ++ columnIndent ++
  (if c.primaryKey then "PRIMARY KEY" else "") ++ "\n" ++ columnIndent ++
  (match c.defaultValue with
   | some v => "DEFAULT " ++ jsonStringify v
   | none => "") ++ "\n" ++ columnIndent ++
  (match c.foreignKey with
   | some fk =>
     "REFERENCES " ++ fk.references ++ "(" ++ fk.column ++ ") ON DELETE " ++
     fkActionStr (fk.onDelete.getD .noAction) ++ " ON UPDATE " ++
     fkActionStr (fk.onUpdate.getD .noAction)
   | none => "")

/-- The `split("\n")` operation on the character list of a string. -/
def splitOnNewline : List Char → List (List Char)
  | [] => [[]]
  | c :: cs =>
    match splitOnNewline cs with
    | [] => []
    | r :: rs => if c = '\n' then [] :: r :: rs else (c :: r) :: rs

/-- Method `String.prototype.trim`: strip leading and trailing JavaScript
whitespace. -/
def trimChars (l : List Char) : List Char :=
  ((l.dropWhile isJsSpace).reverse.dropWhile isJsSpace).reverse

/-- The whitespace normalization applied to each column definition:
`l.split("\n").map(r => r.trim()).filter(r => r).join(" ")`. -/
def colDef (key : String) (c : ColumnDef) : String :=
  String.intercalate " "
    ((((splitOnNewline (colDefRaw key c).data).map trimChars).filter
      (fun r => r ≠ [])).map (fun l => String.mk l))

/-- The full `CREATE TABLE IF NOT EXISTS` command text of `prepareTable`. -/
def createTableCommand (tableName : String) (frame : TableFrameInit) : String :=
  "CREATE TABLE IF NOT EXISTS " ++ tableName ++ " (" ++
    String.intercalate ", " (frame.map (fun kv => colDef kv.1 kv.2)) ++ ")"

/-- The settlement state of a JavaScript promise executor: `none` while
pending, `some` once settled.  The first settlement wins; later calls to
`resolve`/`reject` are ignored, but execution of the executor body
continues after either. -/
abbrev Settled := Option (Except String Unit)

/-- Calling `reject msg` inside a promise executor. -/
def settleReject (s : Settled) (msg : String) : Settled :=
  match s with
  | none => some (.error msg)
  | some r => some r

/-- Calling `resolve()` inside a promise executor. -/
def settleResolve (s : Settled) : Settled :=
  match s with
  | none => some (.ok ())
  | some r => some r

/-- JavaScript object assignment `obj[k] = v` on an association list:
replace in place when the key exists, append otherwise. -/
def objSet {α : Type} (m : List (String × α)) (k : String) (v : α) : List (String × α) :=
  if m.any (fun p => p.1 = k) then m.map (fun p => if p.1 = k then (k, v) else p)
  else m ++ [(k, v)]

/-- JavaScript object lookup `obj[k]` on an association list. -/
def objGet {α : Type} (m : List (String × α)) (k : String) : Option α :=
  (m.find? (fun p => p.1 = k)).map (fun p => p.2)

/-- The observable outcome of one `prepareTable` call: how the returned
promise settled, the SQL texts passed to `db.run`, and the in-memory
table registry afterwards. -/
structure PrepareOutcome where
  settled : Except String Unit
  engineCalls : List String
  tablesAfter : List (String × TableFrameInit)

/-- Method `DatabaseWrapper.prepareTable`, threaded over the promise-settlement
state.  `reject` is called for an invalid table name and for each invalid
column name, but execution continues either way: the CREATE TABLE command
is always passed to `db.run`, the schema is always stored in
`this.tables`, and `resolve()` always runs last.  `engineRun` is the
engine's response to the command (`.error` models a thrown
`SQLite3Error` with that message). -/
def prepareTableModel (engineRun : String → Except String Unit)
    (tables : List (String × TableFrameInit)) (tableName : String)
    (frame : TableFrameInit) : PrepareOutcome :=
  let s0 : Settled := none
  let s1 := if checkSqlQueryIdentifierName tableName then s0
            else settleReject s0 ("Invalid characters in table name: " ++ tableName)
  let s2 := frame.foldl (fun s kv =>
      if checkSqlQueryIdentifierName kv.1 then s
      else settleReject s ("Invalid characters in column name: " ++ kv.1)) s1
  let command := createTableCommand tableName frame
  let s3 := match engineRun command with
    | .ok _ => s2
    | .error msg => settleReject s2 ("Failed to prepare table due to: " ++ msg)
  { settled := (settleResolve s3).getD (.ok ())
    engineCalls := [command]
    tablesAfter := objSet tables tableName frame }

/-- The observable outcome of one `DatabaseWrapper.delete` call. -/
structure DeleteOutcome where
  settled : Except String Unit
  engineCalls : List String
deriving Repr

/-- Method `DatabaseWrapper.delete`, threaded over the promise-settlement state.
The guard `if (!this.isTableExist(tableName)) reject(...)` never fires:
`isTableExist` is not awaited, so its value is a promise object, which is
always truthy and whose negation is constantly false — the outcome does
not depend on `tableInCatalog`, the actual catalog state.  A throw inside
`getConditionStr` rejects the promise before `runCommand`; otherwise the
DELETE statement is passed to the engine and the promise settles from the
engine's answer (unless an earlier `reject` already settled it). -/
def deleteModel (tableInCatalog : Bool) (engineRun : String → Except String Unit)
    (tableName : String) (conditions : List WhereConditionItem) : DeleteOutcome :=
  let s0 : Settled := none
  let s1 := if tableInCatalog || !tableInCatalog then s0 else
              settleReject s0 ("Table " ++ tableName ++ " does not exist")
  let s2 := if checkSqlQueryIdentifierName tableName then s1
            else settleReject s1 ("Invalid characters in table name: " ++ tableName)
  match getConditionStr conditions with
  | .error e =>
    { settled := (settleReject s2 e).getD (.error e), engineCalls := [] }
  | .ok condStr =>
    let queryStr := "DELETE FROM " ++ tableName ++ condStr
    let s3 := match engineRun queryStr with
      | .ok _ => settleResolve s2
      | .error msg =>
        settleReject s2 ("Failed to delete data from " ++ tableName ++ ": SQL error: " ++ msg)
    { settled := s3.getD (.ok ()), engineCalls := [queryStr] }

/-- Constant `DatabaseWrapper.cacheRecordMaximum`. -/
def cacheRecordMaximum : Nat := 512

/-- The statement cache: the `cachedStatements` map (keys are exact SQL
texts, values are prepared-statement handles, modelled as numbers drawn
from `nextHandle`) together with the multiset of handles finalized so
far. -/
structure CacheState where
  entries : List (String × Nat)
  finalized : List Nat
  nextHandle : Nat
deriving DecidableEq, Repr

/-- The cache of a freshly constructed wrapper. -/
def initialCache : CacheState := ⟨[], [], 0⟩

/-- Method `DatabaseWrapper.freeCache`: finalize every cached statement and clear
the map. -/
def freeCache (c : CacheState) : CacheState :=
  { c with entries := [], finalized := c.finalized ++ c.entries.map (fun p => p.2) }

/-- Method `DatabaseWrapper.cacheSizeGuard`: evict the whole cache when its size
exceeds `cacheRecordMaximum`, otherwise leave it unchanged. -/
def cacheSizeGuard (c : CacheState) : CacheState :=
  if c.entries.length > cacheRecordMaximum then freeCache c else c

/-- Method `DatabaseWrapper.retrieveCache`: `Map.get`. -/
def retrieveCache (c : CacheState) (query : String) : Option Nat :=
  objGet c.entries query

/-- Method `DatabaseWrapper.recordCache`: `Map.set` (replace in place when the
key is present, append otherwise). -/
def recordCache (c : CacheState) (query : String) (handle : Nat) : CacheState :=
  { c with entries := objSet c.entries query handle }

/-- The cache transition of one statement preparation through
`runCommand`/`runQuery`: a cache hit leaves the cache unchanged; a miss
prepares a fresh statement, runs `cacheSizeGuard()` and only then
`recordCache(query, statement)` — the guard precedes the insertion. -/
def prepareStep (c : CacheState) (query : String) : CacheState :=
  match retrieveCache c query with
  | some _ => c
  | none =>
    let c1 := { c with nextHandle := c.nextHandle + 1 }
    recordCache (cacheSizeGuard c1) query c.nextHandle

/-- The cache states observed immediately after the eviction check of each
insertion (cache miss) while processing a sequence of SQL texts from a
given starting cache. -/
def guardStatesAux : CacheState → List String → List CacheState
  | _, [] => []
  | c, q :: qs =>
    match retrieveCache c q with
    | some _ => guardStatesAux c qs
    | none =>
      let c1 := { c with nextHandle := c.nextHandle + 1 }
      let c2 := cacheSizeGuard c1
      c2 :: guardStatesAux (recordCache c2 q c.nextHandle) qs

/-- The post-eviction-check cache states of a whole preparation sequence,
starting from the fresh cache. -/
def guardStates (queries : List String) : List CacheState :=
  guardStatesAux initialCache queries

/-- A concrete cache holding 513 distinct resident statements, one over
the maximum. -/
def bigCache513 : CacheState :=
  ⟨(List.range 513).map (fun i => ("q" ++ toString i, i)), [], 513⟩

/-- The fragment contributed by the first condition of a WHERE clause: its
connective is discarded (rendered as the empty string, leaving the double
space), and the condition is parenthesized with a single placeholder. -/
def whereHeadFragment (c : WhereConditionItem) : String :=
  "  (" ++ c.key ++ " " ++ compareOpStr c.operator ++ " ?)"

/-- The fragment contributed by every later condition: its own connective
(that of element `i`, not of element `i - 1`), then the parenthesized
predicate with a single placeholder. -/
def whereTailFragment (d : WhereConditionItem) : String :=
  " " ++ logicalOpStr d.logicalOperator ++ " (" ++ d.key ++ " " ++ compareOpStr d.operator ++ " ?)"

/-- The WHERE clause as the spec describes it (with the code's actual
whitespace): empty for no conditions, otherwise ` WHERE ` followed by the
first condition without its connective and every later condition prefixed
by its own connective. -/
def whereRender : List WhereConditionItem → String
  | [] => ""
  | c :: cs => " WHERE " ++ String.join (whereHeadFragment c :: cs.map whereTailFragment)

/-- Whether an insert outcome reached `runCommand`, i.e. handed a
statement to the engine. -/
def insertSendsCommand : InsertOutcome → Bool
  | .command _ _ => true
  | _ => false

theorem conditionFragment_zero (c : WhereConditionItem)
    (h : checkSqlQueryIdentifierName c.key = true) :
    conditionFragment 0 c = .ok (whereHeadFragment c) := by
  unfold conditionFragment
  rw [h]
  rfl

theorem conditionFragment_succ (n : Nat) (c : WhereConditionItem)
    (h : checkSqlQueryIdentifierName c.key = true) :
    conditionFragment (n + 1) c = .ok (whereTailFragment c) := by
  unfold conditionFragment
  rw [h, if_pos (Nat.le_add_left 1 n)]
  rfl

theorem mapFragments_tail (cs : List WhereConditionItem) : ∀ (n : Nat),
    (∀ c ∈ cs, checkSqlQueryIdentifierName c.key = true) →
    mapFragments (n + 1) cs = .ok (cs.map whereTailFragment) := by
  induction cs with
  | nil => intro n _; rfl
  | cons c cs ih =>
    intro n h
    have hc := h c (List.mem_cons_self c cs)
    have hcs := fun d hd => h d (List.mem_cons_of_mem c hd)
    rw [mapFragments, conditionFragment_succ n c hc, ih (n + 1) hcs]
    rfl

theorem getConditionStr_valid (conds : List WhereConditionItem)
    (h : ∀ c ∈ conds, checkSqlQueryIdentifierName c.key = true) :
    getConditionStr conds = .ok (whereRender conds) := by
  cases conds with
  | nil => rfl
  | cons c cs =>
    have hc := h c (List.mem_cons_self c cs)
    have hcs := fun d hd => h d (List.mem_cons_of_mem c hd)
    unfold getConditionStr
    rw [if_neg (by simp)]
    rw [mapFragments, conditionFragment_zero c hc, mapFragments_tail cs 0 hcs]
    rfl

theorem all_eq_false_of_mem {l : List Char} {p : Char → Bool} {c : Char}
    (hmem : c ∈ l) (hc : p c = false) : l.all p = false := by
  cases hall : l.all p with
  | false => rfl
  | true => exact absurd (List.all_eq_true.mp hall c hmem) (by simp [hc])

/-- Core rejection property of the validator: a string containing a
character outside every allowed class (not a word character, not
whitespace, not a comma or parenthesis) is rejected, unless its last
character is a star — `/\*$/` accepts any string ending in `*`. -/
theorem check_false_of_bad_char (s : String) (c : Char)
    (hmem : c ∈ s.data) (hw : isWordChar c = false) (hs : isJsSpace c = false)
    (hcomma : c ≠ ',') (hop : c ≠ '(') (hcp : c ≠ ')')
    (hlast : s.data.getLast? ≠ some '*') :
    checkSqlQueryIdentifierName s = false := by
  have hclass : (isWordChar c || isJsSpace c) = false := by rw [hw, hs]; rfl
  have hA : allowedCharsTest s = false := by
    unfold allowedCharsTest
    rw [all_eq_false_of_mem hmem hclass]
    simp
  have hS : singleStarTest s = false := by
    unfold singleStarTest
    simp [hlast]
  have hT : allowTupleTest s = false := by
    unfold allowTupleTest
    cases hd : s.data with
    | nil => rfl
    | cons a rest =>
      rw [hd] at hmem
      by_cases ha : a = '('
      · subst ha
        rw [allowTupleAux]
        cases hr : rest.reverse with
        | nil => rfl
        | cons b bodyRev =>
          by_cases hb : b = ')'
          · subst hb
            have hcr : c ∈ rest := by
              cases List.mem_cons.mp hmem with
              | inl h => exact absurd h hop
              | inr h => exact h
            have hrest : rest = bodyRev.reverse ++ [')'] := by
              have h2 := congrArg List.reverse hr
              rw [List.reverse_reverse] at h2
              rw [h2, List.reverse_cons]
            rw [hrest] at hcr
            have hbody : c ∈ bodyRev := by
              cases List.mem_append.mp hcr with
              | inl h => exact List.mem_reverse.mp h
              | inr h =>
                exact absurd (List.mem_singleton.mp h) hcp
            have htc : isTupleChar c = false := by
              unfold isTupleChar
              rw [hw, hs]
              simp [hcomma]
            rw [tupleTailTest, all_eq_false_of_mem hbody htc]
            simp
          · rw [tupleTailTest]; simp [hb]
      · simp [allowTupleAux, ha]
  unfold checkSqlQueryIdentifierName
  rw [hA, hS, hT]
  rfl

theorem find?_map_set {α : Type} (m : List (String × α)) (k : String) (v : α)
    (h : m.any (fun p => p.1 = k) = true) :
    List.find? (fun p => p.1 = k)
      (m.map (fun p => if p.1 = k then (k, v) else p)) = some (k, v) := by
  induction m with
  | nil => simp at h
  | cons p rest ih =>
    by_cases hp : p.1 = k
    · simp [List.find?, hp]
    · rw [List.any_cons] at h
      have hp2 : (decide (p.1 = k)) = false := by simp [hp]
      rw [hp2, Bool.false_or] at h
      simp [List.find?, hp, ih h]

theorem find?_append_nomatch {α : Type} (m : List (String × α)) (k : String) (v : α)
    (h : m.any (fun p => p.1 = k) = false) :
    List.find? (fun p => p.1 = k) (m ++ [(k, v)]) = some (k, v) := by
  induction m with
  | nil => simp [List.find?]
  | cons p rest ih =>
    rw [List.any_cons] at h
    rcases Bool.or_eq_false_iff.mp h with ⟨hp, hrest⟩
    simp only [List.cons_append, List.find?, hp]
    exact ih hrest

theorem objGet_objSet {α : Type} (m : List (String × α)) (k : String) (v : α) :
    objGet (objSet m k v) k = some v := by
  cases hany : m.any (fun p => p.1 = k) with
  | true =>
    have hset : objSet m k v = m.map (fun p => if p.1 = k then (k, v) else p) := by
      unfold objSet; simp [hany]
    rw [hset]
    unfold objGet
    rw [find?_map_set m k v hany]
    rfl
  | false =>
    have hset : objSet m k v = m ++ [(k, v)] := by
      unfold objSet; simp [hany]
    rw [hset]
    unfold objGet
    rw [find?_append_nomatch m k v hany]
    rfl

theorem foldl_settle_valid (frame : List (String × ColumnDef)) :
    ∀ (s : Settled),
    (∀ kv ∈ frame, checkSqlQueryIdentifierName kv.1 = true) →
    frame.foldl (fun s kv =>
      if checkSqlQueryIdentifierName kv.1 then s
      else settleReject s ("Invalid characters in column name: " ++ kv.1)) s = s := by
  induction frame with
  | nil => intro s _; rfl
  | cons kv rest ih =>
    intro s h
    rw [List.foldl_cons, if_pos (h kv (List.mem_cons_self kv rest))]
    exact ih s (fun d hd => h d (List.mem_cons_of_mem kv hd))

theorem cacheSizeGuard_length_le (c : CacheState) :
    (cacheSizeGuard c).entries.length ≤ cacheRecordMaximum := by
  unfold cacheSizeGuard
  split
  · simp [freeCache]
  · next h => omega

theorem guardStatesAux_bound (qs : List String) :
    ∀ (c : CacheState), ∀ s ∈ guardStatesAux c qs,
      s.entries.length ≤ cacheRecordMaximum := by
  induction qs with
  | nil => intro c s hs; simp [guardStatesAux] at hs
  | cons q rest ih =>
    intro c s hs
    rw [guardStatesAux] at hs
    cases hret : retrieveCache c q with
    | some v => rw [hret] at hs; exact ih c s hs
    | none =>
      rw [hret] at hs
      rcases List.mem_cons.mp hs with he | hm
      · rw [he]; exact cacheSizeGuard_length_le _
      · exact ih _ s hm

/-- C2 counterexample: the string "x;*" contains a semicolon, yet the
identifier validator returns true, because the regex `/\*$/` is
unanchored at the start and accepts any string whose last character is a
star. -/
theorem c2_counterexample_star_bypasses_semicolon :
    ';' ∈ ("x;*").data ∧ checkSqlQueryIdentifierName "x;*" = true :=
  ⟨by decide, rfl⟩

/-- C2 (amended): for every input string that contains a semicolon, a
single quote (character 39), or the comment marker "--", and whose last
character is not a star, the identifier validator returns false. -/
theorem c2_validator_rejects_injection_chars (s : String)
    (hbad : ';' ∈ s.data ∨ (Char.ofNat 39) ∈ s.data ∨ List.IsInfix ['-', '-'] s.data)
    (hstar : s.data.getLast? ≠ some '*') :
    checkSqlQueryIdentifierName s = false := by
  rcases hbad with h | h | h
  · exact check_false_of_bad_char s ';' h (by decide) (by decide) (by decide)
      (by decide) (by decide) hstar
  · exact check_false_of_bad_char s (Char.ofNat 39) h (by decide) (by decide) (by decide)
      (by decide) (by decide) hstar
  · have hm : '-' ∈ s.data := h.subset (by decide)
    exact check_false_of_bad_char s '-' hm (by decide) (by decide) (by decide)
      (by decide) (by decide) hstar

/-- Witness for C2 at the concrete input "a;b". -/
theorem c2_validator_rejects_injection_chars_witness :
    checkSqlQueryIdentifierName "a;b" = false :=
  c2_validator_rejects_injection_chars "a;b" (Or.inl (by decide)) (by decide)

/-- C9 counterexample: the empty string is (vacuously) composed solely of
letters, digits, underscore and whitespace, yet the validator returns
false, because all three regexes require at least one character. -/
theorem c9_counterexample_empty_string :
    ("".data.all (fun c => isWordChar c || isJsSpace c) = true) ∧
    checkSqlQueryIdentifierName "" = false :=
  ⟨rfl, rfl⟩

/-- C9 (amended): for every non-empty string composed solely of letters,
digits, underscore and whitespace, the identifier validator returns
true. -/
theorem c9_validator_accepts_word_chars (s : String) (hne : s.data ≠ [])
    (hall : s.data.all (fun c => isWordChar c || isJsSpace c) = true) :
    checkSqlQueryIdentifierName s = true := by
  unfold checkSqlQueryIdentifierName allowedCharsTest
  rw [hall]
  simp [hne]

/-- Witness for C9 at the concrete input "col name_1". -/
theorem c9_validator_accepts_word_chars_witness :
    checkSqlQueryIdentifierName "col name_1" = true :=
  c9_validator_accepts_word_chars "col name_1" (by decide) (by decide)

/-- C6 counterexample: for a single condition the source yields
" WHERE   (a = ?)" — the discarded first connective is rendered as an
empty string between two template spaces, so the claimed exact shape
" WHERE (a = ?)" does not match. -/
theorem c6_counterexample_extra_spaces :
    getConditionStr [⟨"a", .eq, .num 1, .andOp⟩] = .ok " WHERE   (a = ?)" ∧
    (" WHERE   (a = ?)" : String) ≠ " WHERE (a = ?)" :=
  ⟨rfl, by decide⟩

/-- C6 (amended): `whereClause([])` is the empty string; on a non-empty
sequence of conditions whose column names pass the identifier check it
returns ` WHERE ` followed by the first condition's fragment with its
connective discarded (rendered as an empty string, leaving a doubled
space) and, for each later element, a fragment carrying that element's
own connective; every condition is independently parenthesized with one
placeholder. -/
theorem c6_whereClause_shape (conds : List WhereConditionItem)
    (h : ∀ c ∈ conds, checkSqlQueryIdentifierName c.key = true) :
    getConditionStr conds = .ok (whereRender conds) ∧ whereRender [] = "" :=
  ⟨getConditionStr_valid conds h, rfl⟩

/-- Witness for C6 at one- and two-condition inputs. -/
theorem c6_whereClause_shape_witness :
    getConditionStr [⟨"a", .eq, .num 1, .andOp⟩, ⟨"b", .gt, .num 2, .orOp⟩] =
      .ok (whereRender [⟨"a", .eq, .num 1, .andOp⟩, ⟨"b", .gt, .num 2, .orOp⟩]) ∧
    whereRender [] = "" :=
  c6_whereClause_shape [⟨"a", .eq, .num 1, .andOp⟩, ⟨"b", .gt, .num 2, .orOp⟩] (by decide)

/-- C7: the select query builder appends ` LIMIT ?` (with the limit as a
bound parameter) exactly when `limit > 0` and ` OFFSET ?` (with the
offset as a bound parameter) exactly when `offset > 0`; for values of 0
or less the generated SQL carries no LIMIT/OFFSET fragment and no extra
parameter. -/
theorem c7_select_limit_offset (t : String) (cols : List String)
    (conds : List WhereConditionItem) (limit offset : Int)
    (h : ∀ c ∈ conds, checkSqlQueryIdentifierName c.key = true) :
    selectQueryBuild t cols conds limit offset = .ok
      ("SELECT " ++ String.intercalate "," cols ++ " FROM " ++ t ++ whereRender conds ++
         (if limit > 0 then " LIMIT ?" else "") ++
         (if offset > 0 then " OFFSET ?" else ""),
       conds.map (fun c => c.compared) ++
         (if limit > 0 then [JsValue.num limit] else []) ++
         (if offset > 0 then [JsValue.num offset] else [])) := by
  unfold selectQueryBuild
  cases conds with
  | nil =>
    split_ifs <;>
      simp_all [whereRender, String.append_assoc, String.append_empty, Bind.bind, Except.bind,
        Pure.pure, Except.pure]
  | cons c cs =>
    rw [if_pos (by simp : (c :: cs).length > 0), getConditionStr_valid (c :: cs) h]
    split_ifs <;>
      simp_all [String.append_assoc, String.append_empty, Bind.bind, Except.bind,
        Pure.pure, Except.pure]

/-- Witness for C7 at a concrete input with a positive limit and a
non-positive offset. -/
theorem c7_select_limit_offset_witness :
    selectQueryBuild "t" ["x"] [] 2 0 = .ok
      ("SELECT " ++ String.intercalate "," ["x"] ++ " FROM " ++ "t" ++ whereRender [] ++
         (if (2 : Int) > 0 then " LIMIT ?" else "") ++
         (if (0 : Int) > 0 then " OFFSET ?" else ""),
       ([] : List WhereConditionItem).map (fun c => c.compared) ++
         (if (2 : Int) > 0 then [JsValue.num 2] else []) ++
         (if (0 : Int) > 0 then [JsValue.num 0] else [])) :=
  c7_select_limit_offset "t" ["x"] [] 2 0 (by simp)

/-- C8: calling insert with an empty row sequence never hands a statement
to the engine — it either returns an early rejection (invalid table name)
or throws a TypeError at `Object.keys(dataFrame[0])`. -/
theorem c8_insert_empty_rows_no_engine (t : String) (conflict : Option ConflictOption) :
    insertSendsCommand (insertModel t [] conflict) = false := by
  cases h : checkSqlQueryIdentifierName t <;>
    simp [insertModel, insertSendsCommand, h]

/-- C4: for two rows with the identical key set {x}, insert builds
`INSERT INTO t (x) VALUES (?),  VALUES (?)` — the VALUES keyword is
repeated once per row (each row's fragment carries its own ` VALUES`,
joined with ", "), which is not the single-VALUES-clause form
`INSERT INTO t (x) VALUES (?), (?)` and is not well-formed SQL. -/
theorem c4_insert_multi_row_values_repeated :
    insertModel "t" [[("x", JsValue.num 1)], [("x", JsValue.num 2)]] none =
      .command "INSERT INTO t (x) VALUES (?),  VALUES (?)" [JsValue.num 1, JsValue.num 2] ∧
    ("INSERT INTO t (x) VALUES (?),  VALUES (?)" : String) ≠
      "INSERT INTO t (x) VALUES (?), (?)" :=
  ⟨rfl, by decide⟩

/-- C1: at the concrete input `prepareTable("a;b", {x: INTEGER})` the
table name fails the identifier check and the returned promise settles
with the validation error, yet the CREATE TABLE statement, with the
invalid name interpolated, is still passed to `db.run` — `reject` does
not stop the executor. -/
theorem c1_prepareTable_sends_sql_despite_validation_failure :
    checkSqlQueryIdentifierName "a;b" = false ∧
    (prepareTableModel (fun _ => .ok ()) [] "a;b" [("x", { type := .integer })]).settled =
      .error "Invalid characters in table name: a;b" ∧
    (prepareTableModel (fun _ => .ok ()) [] "a;b" [("x", { type := .integer })]).engineCalls =
      ["CREATE TABLE IF NOT EXISTS a;b (x INTEGER)"] :=
  ⟨rfl, rfl, rfl⟩

/-- C5: `delete` never consults the result of its existence check — the
un-awaited promise returned by `isTableExist` is always truthy — so with
the table absent from the catalog the DELETE statement is still sent to
the engine and the promise resolves; in general the outcome is identical
whatever the catalog says. -/
theorem c5_delete_ignores_catalog_check :
    (deleteModel false (fun _ => .ok ()) "missing" []).engineCalls = ["DELETE FROM missing"] ∧
    (deleteModel false (fun _ => .ok ()) "missing" []).settled = .ok () ∧
    ∀ (inCat : Bool) (eng : String → Except String Unit) (t : String)
      (conds : List WhereConditionItem),
      deleteModel inCat eng t conds = deleteModel true eng t conds := by
  refine ⟨rfl, rfl, ?_⟩
  intro inCat eng t conds
  cases inCat <;> rfl

/-- C10 counterexample: when the engine fails the CREATE TABLE with
"disk full", `reject` settles the promise first, so the returned promise
settles as a rejection, not successfully — yet the schema registry is
still updated afterwards. -/
theorem c10_counterexample_engine_error_rejects :
    (prepareTableModel (fun _ => .error "disk full") [] "t"
      [("x", { type := .integer })]).settled =
      .error "Failed to prepare table due to: disk full" ∧
    objGet (prepareTableModel (fun _ => .error "disk full") [] "t"
      [("x", { type := .integer })]).tablesAfter "t" =
      some [("x", { type := .integer })] :=
  ⟨rfl, rfl⟩

/-- C10 (amended): for every `prepareTable(t, frame)` whose table and
column names pass validation, the in-memory registry afterwards maps `t`
to `frame` regardless of the engine's answer; the promise settles
successfully when the engine accepts the CREATE TABLE and settles as a
rejection wrapping the engine message when it fails — the engine failure
does not prevent registration, but it does prevent a successful
settlement. -/
theorem c10_prepareTable_registers_regardless (engineRun : String → Except String Unit)
    (tables : List (String × TableFrameInit)) (t : String) (frame : List (String × ColumnDef))
    (ht : checkSqlQueryIdentifierName t = true)
    (hcols : ∀ kv ∈ frame, checkSqlQueryIdentifierName kv.1 = true) :
    objGet (prepareTableModel engineRun tables t frame).tablesAfter t = some frame ∧
    (prepareTableModel engineRun tables t frame).settled =
      (match engineRun (createTableCommand t frame) with
       | .ok _ => .ok ()
       | .error msg => .error ("Failed to prepare table due to: " ++ msg)) := by
  constructor
  · exact objGet_objSet tables t frame
  · have hfold := foldl_settle_valid frame none hcols
    cases heng : engineRun (createTableCommand t frame) <;>
      simp only [prepareTableModel, ht, if_true, heng, hfold] <;>
      simp [settleReject, settleResolve]

/-- Witness for C10 at a concrete failing engine. -/
theorem c10_prepareTable_registers_regardless_witness :
    objGet (prepareTableModel (fun _ => .error "disk full") [] "t"
      [("y", { type := .text })]).tablesAfter "t" = some [("y", { type := .text })] ∧
    (prepareTableModel (fun _ => .error "disk full") [] "t"
      [("y", { type := .text })]).settled =
      (match (fun (_ : String) => (Except.error "disk full" : Except String Unit))
          (createTableCommand "t" [("y", { type := .text })]) with
       | .ok _ => .ok ()
       | .error msg => .error ("Failed to prepare table due to: " ++ msg)) :=
  c10_prepareTable_registers_regardless (fun _ => .error "disk full") [] "t"
    [("y", { type := .text })] (by decide) (by decide)

/-- C3: for every sequence of statement preparations, every cache state
observed immediately after the insertion-triggered eviction check holds
at most `cacheRecordMaximum` (512) resident statements; and whenever the
size exceeds the maximum the check evicts the ENTIRE cache — the map is
cleared and every resident statement is finalized, never a partial
eviction. -/
theorem c3_cache_bound_and_total_eviction (queries : List String) :
    (∀ s ∈ guardStates queries, s.entries.length ≤ cacheRecordMaximum) ∧
    (∀ c : CacheState, cacheRecordMaximum < c.entries.length →
      cacheSizeGuard c = freeCache c ∧ (freeCache c).entries = [] ∧
      (freeCache c).finalized = c.finalized ++ c.entries.map (fun p => p.2)) := by
  constructor
  · exact fun s hs => guardStatesAux_bound queries initialCache s hs
  · intro c hc
    refine ⟨?_, rfl, rfl⟩
    unfold cacheSizeGuard
    rw [if_pos hc]

/-- Witness for C3: the post-check state of a one-query run is within the
bound, and a concrete 513-entry cache is evicted in full. -/
theorem c3_cache_bound_and_total_eviction_witness :
    (⟨[], [], 1⟩ : CacheState).entries.length ≤ cacheRecordMaximum ∧
    cacheSizeGuard bigCache513 = freeCache bigCache513 :=
  ⟨(c3_cache_bound_and_total_eviction ["a"]).1 ⟨[], [], 1⟩ (by decide),
   ((c3_cache_bound_and_total_eviction []).2 bigCache513
     (by simp [bigCache513, cacheRecordMaximum])).1⟩
